import Mathlib

/-!
Verification of the PreSonus AudioBox 22 VSL mixer quirk
(`sound/usb/audiobox_vsl.c`).

The driver is embedded shallowly: the USB transport (`snd_usb_ctl_msg`)
becomes a function parameter from control requests to results, machine
integers become `Int`/`Nat` with explicit two's-complement wrapping where
the C code narrows, and C's truncating `/` on signed operands becomes
`Int.tdiv`.  Each ALSA callback is translated into a pure function that
also returns the transcript of control transfers it issued, so that
ordering and fail-fast behaviour are provable.
-/

/-! ## Machine-integer helpers -/

/-- Two's-complement narrowing to a signed 32-bit value (the effect of
storing into an `s32` in C). -/
def tos32 (n : Int) : Int := (n + 2147483648) % 4294967296 - 2147483648

/-- Two's-complement narrowing to a signed 16-bit value (the effect of a
`(s16)` cast in C). -/
def tos16 (n : Int) : Int := (n + 32768) % 65536 - 32768

/-! ## Constants

`UAC2_*` and `USB_*` come from the kernel headers `linux/usb/audio-v2.h`
and `linux/usb/ch9.h` (external collaborators; the values are fixed by the
UAC2 / USB standards). -/

def UAC2_CS_CUR : Nat := 0x01

def UAC2_FU_MUTE : Nat := 0x01

def UAC2_FU_VOLUME : Nat := 0x02

def USB_DIR_IN : Nat := 0x80

def USB_DIR_OUT : Nat := 0x00

def USB_TYPE_CLASS : Nat := 0x20

def USB_RECIP_INTERFACE : Nat := 0x01

/-- Kernel error number used by the driver's validation paths. -/
def EINVAL : Int := 22

/-- Modelled from the spec: the header `audiobox_vsl.h` defining the named
constant `VSL_VOLUME_MIN_DB` is not among the sources; the spec fixes the
host-native volume range as [-6000, 1200] in 1/100 dB units. -/
def VSL_VOLUME_MIN_DB : Int := -6000

/-- Modelled from the spec: upper bound of the host-native volume range
(see `VSL_VOLUME_MIN_DB`). -/
def VSL_VOLUME_MAX_DB : Int := 1200

/-- Modelled from the spec: the playback Feature Unit identifier, fixed by
the spec as 10 (`audiobox_vsl.h` is not among the sources). -/
def VSL_FU_PLAYBACK_UNIT : Nat := 10

/-- Modelled from the spec: the capture Feature Unit identifier, fixed by
the spec as 11 (`audiobox_vsl.h` is not among the sources). -/
def VSL_FU_CAPTURE_UNIT : Nat := 11

/-! ## Control transaction builder (lines 70-167) -/

/-- One control transfer as handed to `snd_usb_ctl_msg`: pipe direction,
bmRequestType, bRequest, wValue, wIndex and the transfer size. -/
structure CtlRequest where
  dirIn : Bool
  requesttype : Nat
  request : Nat
  wValue : Nat
  wIndex : Nat
  size : Nat
deriving Repr, DecidableEq

/-- The GET_CUR request built at lines 94-99: receive pipe, class request
to the interface recipient, `wValue = (control_selector << 8) | channel`,
`wIndex = (unit_id << 8) | bInterfaceNumber`.  All four address components
are `u8` in C, hence the `% 256`. -/
def mk_get_request (ifnum unit_id control_selector channel size : Nat) : CtlRequest :=
  ⟨true,
   USB_RECIP_INTERFACE ||| USB_TYPE_CLASS ||| USB_DIR_IN,
   UAC2_CS_CUR,
   ((control_selector % 256) <<< 8) ||| (channel % 256),
   ((unit_id % 256) <<< 8) ||| (ifnum % 256),
   size⟩

/-- The SET_CUR request built at lines 152-157: send pipe, otherwise the
same addressing as `mk_get_request`. -/
def mk_set_request (ifnum unit_id control_selector channel size : Nat) : CtlRequest :=
  ⟨false,
   USB_RECIP_INTERFACE ||| USB_TYPE_CLASS ||| USB_DIR_OUT,
   UAC2_CS_CUR,
   ((control_selector % 256) <<< 8) ||| (channel % 256),
   ((unit_id % 256) <<< 8) ||| (ifnum % 256),
   size⟩

/-- Result of `audiobox_vsl_get_control`: the C return value, the bytes
left in `buf`, and the transcript of transfers actually issued. -/
structure GetCtlResult where
  ret : Int
  buf : List Nat
  issued : List CtlRequest
deriving Repr, DecidableEq

/-- Result of `audiobox_vsl_set_control` (and of the put callbacks): the C
return value and the transcript of (request, payload) pairs issued. -/
structure SetCtlResult where
  ret : Int
  issued : List (CtlRequest × List Nat)
deriving Repr, DecidableEq

/-- `audiobox_vsl_get_control` (lines 70-109).  The transport argument
models `snd_usb_ctl_msg` on the receive pipe: it returns the bus return
code and the bytes stored into `buf`.  Size validation (lines 86-89)
returns `-EINVAL` before any transfer; on a negative transport code the
code is returned verbatim, otherwise 0. -/
def audiobox_vsl_get_control (transport : CtlRequest → Int × List Nat)
    (ifnum unit_id control_selector channel size : Nat) : GetCtlResult :=
  if size = 0 ∨ 4 < size then ⟨-EINVAL, [], []⟩
  else
    let req := mk_get_request ifnum unit_id control_selector channel size
    let r := transport req
    if r.1 < 0 then ⟨r.1, r.2, [req]⟩ else ⟨0, r.2, [req]⟩

/-- `audiobox_vsl_set_control` (lines 128-167).  The transport argument
models `snd_usb_ctl_msg` on the send pipe: it receives the request and the
payload bytes and returns the bus return code. -/
def audiobox_vsl_set_control (transport : CtlRequest → List Nat → Int)
    (ifnum unit_id control_selector channel : Nat) (buf : List Nat) (size : Nat) :
    SetCtlResult :=
  if size = 0 ∨ 4 < size then ⟨-EINVAL, []⟩
  else
    let req := mk_set_request ifnum unit_id control_selector channel size
    let r := transport req buf
    if r < 0 then ⟨r, [(req, buf)]⟩ else ⟨0, [(req, buf)]⟩

/-! ## Volume codec (lines 214-338) -/

/-- Line 239/254: `value_raw = (s16)(buf[0] | (buf[1] << 8))`, decoding a
little-endian signed 16-bit value from two unsigned-char bytes. -/
def decode_s16_le (buf : List Nat) : Int :=
  tos16 (Int.ofNat ((buf.getD 0 0 % 256) ||| ((buf.getD 1 0 % 256) <<< 8)))

/-- Lines 303-304/325-326: `buf[0] = v & 0xFF; buf[1] = (v >> 8) & 0xFF`
on the (sign-extended) `s16` value; `>>` is an arithmetic shift, so the
bytes are the little-endian two's-complement representation. -/
def encode_s16_le (v : Int) : List Nat :=
  [(v % 256).toNat, ((v / 256) % 256).toNat]

/-- Lines 242/255: the get-path conversion
`((s32)value_raw * 100) / 256` from device units (1/256 dB) to host units
(1/100 dB), with C truncating division on the `s32` product. -/
def device_to_host (value_raw : Int) : Int :=
  (tos32 (value_raw * 100)).tdiv 256

/-- Lines 294-297/319-322: clamp the `s32` host value to the control
range. -/
def clamp_volume (alsa_value : Int) : Int :=
  if alsa_value < VSL_VOLUME_MIN_DB then VSL_VOLUME_MIN_DB
  else if alsa_value > VSL_VOLUME_MAX_DB then VSL_VOLUME_MAX_DB
  else alsa_value

/-- Lines 291-300/316-324 of the put path: the host value (a C `long`) is
stored into an `s32`, clamped, converted by `(alsa_value * 256) / 100`
with C truncating division, and narrowed by the `(s16)` cast. -/
def host_to_device (value : Int) : Int :=
  tos16 ((tos32 (clamp_volume (tos32 value) * 256)).tdiv 100)

/-- Result of `audiobox_vsl_volume_get`: the C return value, the final
contents of the two `ucontrol` slots, and the transcript of reads. -/
structure VolGetResult where
  ret : Int
  values : Int × Int
  issued : List CtlRequest
deriving Repr, DecidableEq

/-- `audiobox_vsl_volume_get` (lines 214-258): read channel 1 (2 bytes),
on failure return at once leaving `ucontrol` untouched; otherwise store
the converted left gain into slot 0, read channel 2, on failure return its
error (slot 0 already overwritten), otherwise store slot 1 and return 0. -/
def audiobox_vsl_volume_get (transport : CtlRequest → Int × List Nat)
    (ifnum unit_id : Nat) (ucontrol : Int × Int) : VolGetResult :=
  let r1 := audiobox_vsl_get_control transport ifnum unit_id UAC2_FU_VOLUME 1 2
  if r1.ret < 0 then ⟨r1.ret, ucontrol, r1.issued⟩
  else
    let left := device_to_host (decode_s16_le r1.buf)
    let r2 := audiobox_vsl_get_control transport ifnum unit_id UAC2_FU_VOLUME 2 2
    if r2.ret < 0 then ⟨r2.ret, (left, ucontrol.2), r1.issued ++ r2.issued⟩
    else ⟨0, (left, device_to_host (decode_s16_le r2.buf)), r1.issued ++ r2.issued⟩

/-- `audiobox_vsl_volume_put` (lines 275-338): for the left then the right
channel, clamp, convert, encode little-endian and write; abort on the
first failing write; return 1 ("changed") after both writes succeed. -/
def audiobox_vsl_volume_put (transport : CtlRequest → List Nat → Int)
    (ifnum unit_id : Nat) (ucontrol : Int × Int) : SetCtlResult :=
  let bufL := encode_s16_le (host_to_device ucontrol.1)
  let r1 := audiobox_vsl_set_control transport ifnum unit_id UAC2_FU_VOLUME 1 bufL 2
  if r1.ret < 0 then ⟨r1.ret, r1.issued⟩
  else
    let bufR := encode_s16_le (host_to_device ucontrol.2)
    let r2 := audiobox_vsl_set_control transport ifnum unit_id UAC2_FU_VOLUME 2 bufR 2
    if r2.ret < 0 then ⟨r2.ret, r1.issued ++ r2.issued⟩
    else ⟨1, r1.issued ++ r2.issued⟩

/-! ## Mute codec (lines 372-435) -/

/-- Result of `audiobox_vsl_mute_get`: return value, final contents of
`ucontrol` slot 0, transcript of reads. -/
structure MuteGetResult where
  ret : Int
  value : Int
  issued : List CtlRequest
deriving Repr, DecidableEq

/-- `audiobox_vsl_mute_get` (lines 372-399): one 1-byte read on channel 0;
on success the host flag is `!buf[0]` (C logical negation of the
unsigned-char device byte). -/
def audiobox_vsl_mute_get (transport : CtlRequest → Int × List Nat)
    (ifnum unit_id : Nat) (ucontrol : Int) : MuteGetResult :=
  let r := audiobox_vsl_get_control transport ifnum unit_id UAC2_FU_MUTE 0 1
  if r.ret < 0 then ⟨r.ret, ucontrol, r.issued⟩
  else ⟨0, if r.buf.getD 0 0 % 256 = 0 then 1 else 0, r.issued⟩

/-- `audiobox_vsl_mute_put` (lines 409-435): encode `!value[0]` into one
byte, write it on channel 0, return 1 ("changed") on success. -/
def audiobox_vsl_mute_put (transport : CtlRequest → List Nat → Int)
    (ifnum unit_id : Nat) (ucontrol : Int) : SetCtlResult :=
  let buf : List Nat := [if ucontrol = 0 then 1 else 0]
  let r := audiobox_vsl_set_control transport ifnum unit_id UAC2_FU_MUTE 0 buf 1
  if r.ret < 0 then ⟨r.ret, r.issued⟩ else ⟨1, r.issued⟩

/-! ## Initialization sequencer (lines 588-640) -/

/-- The four control templates of lines 447-488, in the order the
initializer registers them. -/
inductive VslControl where
  | playbackVolume
  | playbackMute
  | captureVolume
  | captureMute
deriving Repr, DecidableEq

/-- Result of `snd_audiobox_vsl_init`: the C return value and the set of
controls registered with the host registry (in registration order),
which is never rolled back on failure. -/
structure InitResult where
  ret : Int
  registered : List (VslControl × Nat)
deriving Repr, DecidableEq

/-- `snd_audiobox_vsl_init` (lines 588-640).  The argument models
`audiobox_vsl_create_control` (whose allocation and registry calls are
external): given a template and a Feature Unit id it returns 0 on success
or a negative error.  The four registrations run in fixed order; the first
failure jumps to the error exit, returning that error and leaving the
earlier registrations in place. -/
def snd_audiobox_vsl_init (reg : VslControl → Nat → Int) : InitResult :=
  let e1 := reg .playbackVolume VSL_FU_PLAYBACK_UNIT
  if e1 < 0 then ⟨e1, []⟩
  else
    let e2 := reg .playbackMute VSL_FU_PLAYBACK_UNIT
    if e2 < 0 then ⟨e2, [(.playbackVolume, VSL_FU_PLAYBACK_UNIT)]⟩
    else
      let e3 := reg .captureVolume VSL_FU_CAPTURE_UNIT
      if e3 < 0 then
        ⟨e3, [(.playbackVolume, VSL_FU_PLAYBACK_UNIT),
              (.playbackMute, VSL_FU_PLAYBACK_UNIT)]⟩
      else
        let e4 := reg .captureMute VSL_FU_CAPTURE_UNIT
        if e4 < 0 then
          ⟨e4, [(.playbackVolume, VSL_FU_PLAYBACK_UNIT),
                (.playbackMute, VSL_FU_PLAYBACK_UNIT),
                (.captureVolume, VSL_FU_CAPTURE_UNIT)]⟩
        else
          ⟨0, [(.playbackVolume, VSL_FU_PLAYBACK_UNIT),
               (.playbackMute, VSL_FU_PLAYBACK_UNIT),
               (.captureVolume, VSL_FU_CAPTURE_UNIT),
               (.captureMute, VSL_FU_CAPTURE_UNIT)]⟩

/-! ## Arithmetic helper lemmas -/

/-- Narrowing to `s32` is the identity on representable values. -/
theorem tos32_eq_self (n : Int) (h1 : -2147483648 ≤ n) (h2 : n < 2147483648) :
    tos32 n = n := by
  unfold tos32; omega

/-- Narrowing to `s16` is the identity on representable values. -/
theorem tos16_eq_self (n : Int) (h1 : -32768 ≤ n) (h2 : n < 32768) :
    tos16 n = n := by
  unfold tos16; omega

/-- C truncating division by a nonnegative divisor, written with Euclidean
division so that `omega` can reason about it. -/
theorem tdiv_eq_ite (a b : Int) (hb : 0 ≤ b) :
    a.tdiv b = if 0 ≤ a then a / b else -(-a / b) := by
  split
  next h => exact Int.tdiv_eq_ediv h hb
  next h =>
    have h2 : 0 ≤ -a := by omega
    have hn := Int.neg_tdiv (-a) b
    rw [neg_neg] at hn
    rw [hn, Int.tdiv_eq_ediv h2 hb]

/-- The get-path conversion on any representable `s16` raw value is
exactly `(d * 100) / 256` with truncating division: the intermediate
`s32` product cannot wrap. -/
theorem device_to_host_eq (d : Int) (h1 : -32768 ≤ d) (h2 : d ≤ 32767) :
    device_to_host d = (d * 100).tdiv 256 := by
  unfold device_to_host
  rw [tos32_eq_self (d * 100) (by omega) (by omega)]

/-- Closed form of the set-path value computation for every representable
`s32` input: clamp to [-6000, 1200], then truncating `* 256 / 100`; no
intermediate narrowing changes the value. -/
theorem host_to_device_spec (h : Int)
    (h1 : -2147483648 ≤ h) (h2 : h < 2147483648) :
    host_to_device h =
      if h < -6000 then -15360 else if 1200 < h then 3072
      else (h * 256).tdiv 100 := by
  unfold host_to_device clamp_volume VSL_VOLUME_MIN_DB VSL_VOLUME_MAX_DB
  rw [tos32_eq_self h h1 h2]
  by_cases hc1 : h < -6000
  · rw [if_pos hc1, if_pos hc1]
    decide
  · rw [if_neg hc1, if_neg hc1]
    by_cases hc2 : h > 1200
    · rw [if_pos hc2, if_pos hc2]
      decide
    · rw [if_neg hc2, if_neg hc2]
      rw [tos32_eq_self (h * 256) (by omega) (by omega)]
      rw [tdiv_eq_ite (h * 256) 100 (by norm_num)]
      split
      next hpos => rw [tos16_eq_self] <;> omega
      next hneg => rw [tos16_eq_self] <;> omega

/-! ## Transcript-shape helper lemmas -/

/-- A valid-size `audiobox_vsl_set_control` call issues exactly its one
request and propagates the transport code. -/
theorem set_control_valid (transport : CtlRequest → List Nat → Int)
    (ifnum unit_id control_selector channel : Nat) (buf : List Nat) :
    audiobox_vsl_set_control transport ifnum unit_id control_selector channel buf 2 =
      if transport (mk_set_request ifnum unit_id control_selector channel 2) buf < 0 then
        ⟨transport (mk_set_request ifnum unit_id control_selector channel 2) buf,
         [(mk_set_request ifnum unit_id control_selector channel 2, buf)]⟩
      else ⟨0, [(mk_set_request ifnum unit_id control_selector channel 2, buf)]⟩ := by
  unfold audiobox_vsl_set_control
  rw [if_neg (by decide : ¬((2 : Nat) = 0 ∨ 4 < (2 : Nat)))]

/-- A valid-size `audiobox_vsl_get_control` call issues exactly its one
request, propagates a negative transport code and returns 0 otherwise. -/
theorem get_control_valid (transport : CtlRequest → Int × List Nat)
    (ifnum unit_id control_selector channel : Nat) (size : Nat)
    (hsz : 1 ≤ size ∧ size ≤ 4) :
    audiobox_vsl_get_control transport ifnum unit_id control_selector channel size =
      if (transport (mk_get_request ifnum unit_id control_selector channel size)).1 < 0 then
        ⟨(transport (mk_get_request ifnum unit_id control_selector channel size)).1,
         (transport (mk_get_request ifnum unit_id control_selector channel size)).2,
         [mk_get_request ifnum unit_id control_selector channel size]⟩
      else ⟨0, (transport (mk_get_request ifnum unit_id control_selector channel size)).2,
            [mk_get_request ifnum unit_id control_selector channel size]⟩ := by
  unfold audiobox_vsl_get_control
  rw [if_neg (by omega : ¬(size = 0 ∨ 4 < size))]

/-- Shape of the stereo put path when every transfer succeeds: two writes,
left first, result 1. -/
theorem volume_put_ok (transport : CtlRequest → List Nat → Int) (ifnum unit_id : Nat)
    (uc : Int × Int) (hok : ∀ req buf, 0 ≤ transport req buf) :
    audiobox_vsl_volume_put transport ifnum unit_id uc =
      ⟨1, [(mk_set_request ifnum unit_id UAC2_FU_VOLUME 1 2,
            encode_s16_le (host_to_device uc.1)),
           (mk_set_request ifnum unit_id UAC2_FU_VOLUME 2 2,
            encode_s16_le (host_to_device uc.2))]⟩ := by
  have h1 := hok (mk_set_request ifnum unit_id UAC2_FU_VOLUME 1 2)
    (encode_s16_le (host_to_device uc.1))
  have h2 := hok (mk_set_request ifnum unit_id UAC2_FU_VOLUME 2 2)
    (encode_s16_le (host_to_device uc.2))
  simp only [audiobox_vsl_volume_put]
  rw [set_control_valid, set_control_valid, if_neg (not_lt.mpr h1), if_neg (not_lt.mpr h2)]
  simp

/-- Shape of the stereo put path when the left-channel write fails: one
write only, its error propagated. -/
theorem volume_put_fail_left (transport : CtlRequest → List Nat → Int)
    (ifnum unit_id : Nat) (uc : Int × Int)
    (hfail : transport (mk_set_request ifnum unit_id UAC2_FU_VOLUME 1 2)
      (encode_s16_le (host_to_device uc.1)) < 0) :
    audiobox_vsl_volume_put transport ifnum unit_id uc =
      ⟨transport (mk_set_request ifnum unit_id UAC2_FU_VOLUME 1 2)
         (encode_s16_le (host_to_device uc.1)),
       [(mk_set_request ifnum unit_id UAC2_FU_VOLUME 1 2,
         encode_s16_le (host_to_device uc.1))]⟩ := by
  simp only [audiobox_vsl_volume_put]
  rw [set_control_valid, if_pos hfail]
  simp [hfail]

/-- Shape of the stereo get path when both reads succeed: two reads,
channel 1 then channel 2, both slots overwritten with converted gains. -/
theorem volume_get_ok (transport : CtlRequest → Int × List Nat) (ifnum unit_id : Nat)
    (uc : Int × Int) (hok : ∀ req, 0 ≤ (transport req).1) :
    audiobox_vsl_volume_get transport ifnum unit_id uc =
      ⟨0, (device_to_host (decode_s16_le
             (transport (mk_get_request ifnum unit_id UAC2_FU_VOLUME 1 2)).2),
           device_to_host (decode_s16_le
             (transport (mk_get_request ifnum unit_id UAC2_FU_VOLUME 2 2)).2)),
       [mk_get_request ifnum unit_id UAC2_FU_VOLUME 1 2,
        mk_get_request ifnum unit_id UAC2_FU_VOLUME 2 2]⟩ := by
  have h1 := hok (mk_get_request ifnum unit_id UAC2_FU_VOLUME 1 2)
  have h2 := hok (mk_get_request ifnum unit_id UAC2_FU_VOLUME 2 2)
  simp only [audiobox_vsl_volume_get]
  rw [get_control_valid _ _ _ _ _ _ (by omega), get_control_valid _ _ _ _ _ _ (by omega),
    if_neg (not_lt.mpr h1), if_neg (not_lt.mpr h2)]
  simp

/-- Shape of the stereo get path when the channel-1 read fails: one read
only, its error propagated, `ucontrol` untouched. -/
theorem volume_get_fail_left (transport : CtlRequest → Int × List Nat)
    (ifnum unit_id : Nat) (uc : Int × Int)
    (hfail : (transport (mk_get_request ifnum unit_id UAC2_FU_VOLUME 1 2)).1 < 0) :
    audiobox_vsl_volume_get transport ifnum unit_id uc =
      ⟨(transport (mk_get_request ifnum unit_id UAC2_FU_VOLUME 1 2)).1, uc,
       [mk_get_request ifnum unit_id UAC2_FU_VOLUME 1 2]⟩ := by
  simp only [audiobox_vsl_volume_get]
  rw [get_control_valid _ _ _ _ _ _ (by omega), if_pos hfail]
  simp [hfail]

/-- Shape of the stereo get path when the channel-1 read succeeds and the
channel-2 read fails: both reads issued, the channel-2 error propagated,
slot 0 already overwritten with the decoded left gain, slot 1 untouched. -/
theorem volume_get_fail_right (transport : CtlRequest → Int × List Nat)
    (ifnum unit_id : Nat) (uc : Int × Int)
    (hok1 : 0 ≤ (transport (mk_get_request ifnum unit_id UAC2_FU_VOLUME 1 2)).1)
    (hfail2 : (transport (mk_get_request ifnum unit_id UAC2_FU_VOLUME 2 2)).1 < 0) :
    audiobox_vsl_volume_get transport ifnum unit_id uc =
      ⟨(transport (mk_get_request ifnum unit_id UAC2_FU_VOLUME 2 2)).1,
       (device_to_host (decode_s16_le
          (transport (mk_get_request ifnum unit_id UAC2_FU_VOLUME 1 2)).2), uc.2),
       [mk_get_request ifnum unit_id UAC2_FU_VOLUME 1 2,
        mk_get_request ifnum unit_id UAC2_FU_VOLUME 2 2]⟩ := by
  simp only [audiobox_vsl_volume_get]
  rw [get_control_valid _ _ _ _ _ _ (by omega), get_control_valid _ _ _ _ _ _ (by omega),
    if_neg (not_lt.mpr hok1), if_pos hfail2]
  simp [hfail2]

/-- Shape of the mute get path on a successful read: one 1-byte read on
channel 0, the host flag is the C logical negation of the device byte. -/
theorem mute_get_ok (transport : CtlRequest → Int × List Nat) (ifnum unit_id : Nat)
    (uc : Int) (hok : 0 ≤ (transport (mk_get_request ifnum unit_id UAC2_FU_MUTE 0 1)).1) :
    audiobox_vsl_mute_get transport ifnum unit_id uc =
      ⟨0, (if (transport (mk_get_request ifnum unit_id UAC2_FU_MUTE 0 1)).2.getD 0 0 % 256 = 0
           then 1 else 0),
       [mk_get_request ifnum unit_id UAC2_FU_MUTE 0 1]⟩ := by
  simp only [audiobox_vsl_mute_get]
  rw [get_control_valid _ _ _ _ _ _ (by omega), if_neg (not_lt.mpr hok)]
  simp

/-- Shape of the mute put path on a successful write: one 1-byte write on
channel 0 carrying the C logical negation of the host flag, result 1. -/
theorem mute_put_ok (transport : CtlRequest → List Nat → Int) (ifnum unit_id : Nat)
    (uc : Int)
    (hok : 0 ≤ transport (mk_set_request ifnum unit_id UAC2_FU_MUTE 0 1)
      [if uc = 0 then 1 else 0]) :
    audiobox_vsl_mute_put transport ifnum unit_id uc =
      ⟨1, [(mk_set_request ifnum unit_id UAC2_FU_MUTE 0 1, [if uc = 0 then 1 else 0])]⟩ := by
  simp only [audiobox_vsl_mute_put, audiobox_vsl_set_control]
  rw [if_neg (by decide : ¬((1 : Nat) = 0 ∨ 4 < (1 : Nat))), if_neg (not_lt.mpr hok)]
  simp

/-! ## Claims -/

/-- C1: for every representable device-native gain `d` (signed 16-bit) the
get path converts it to host units as `(d * 100) / 256` with truncating
integer division, and for every clamped host gain `h` in [-6000, 1200] the
set path converts it to device units as `(h * 256) / 100` with truncating
integer division (the value that is then encoded little-endian into the
2-byte payload): none of the intermediate `s32`/`s16` narrowings alters
the value on these ranges. -/
theorem C1_gain_unit_conversion (d h : Int)
    (hd1 : -32768 ≤ d) (hd2 : d ≤ 32767)
    (hh1 : -6000 ≤ h) (hh2 : h ≤ 1200) :
    device_to_host d = (d * 100).tdiv 256 ∧
    host_to_device h = (h * 256).tdiv 100 := by
  constructor
  · exact device_to_host_eq d hd1 hd2
  · rw [host_to_device_spec h (by omega) (by omega), if_neg (by omega), if_neg (by omega)]

/-- Witness for C1 at `d = 255`, `h = -50`. -/
theorem C1_gain_unit_conversion_witness :
    device_to_host 255 = ((255 : Int) * 100).tdiv 256 ∧
    host_to_device (-50) = ((-50 : Int) * 256).tdiv 100 :=
  C1_gain_unit_conversion 255 (-50) (by decide) (by decide) (by decide) (by decide)

/-- C2: on the set path of stereo volume, each channel's `s32` host value
is clamped to [-6000, 1200] before conversion, so the payload actually
written is the little-endian encoding of `host_to_device (-6000) = -15360`
below the range, of `host_to_device 1200 = 3072` above it, and of
`(h * 256) / 100` (truncating) inside it. -/
theorem C2_set_path_clamps (transport : CtlRequest → List Nat → Int)
    (ifnum unit_id : Nat) (h1 h2 : Int)
    (hok : ∀ req buf, 0 ≤ transport req buf)
    (hr1 : -2147483648 ≤ h1 ∧ h1 < 2147483648)
    (hr2 : -2147483648 ≤ h2 ∧ h2 < 2147483648) :
    (audiobox_vsl_volume_put transport ifnum unit_id (h1, h2)).issued.map Prod.snd =
      [encode_s16_le (if h1 < -6000 then -15360 else if 1200 < h1 then 3072
                      else (h1 * 256).tdiv 100),
       encode_s16_le (if h2 < -6000 then -15360 else if 1200 < h2 then 3072
                      else (h2 * 256).tdiv 100)] := by
  rw [volume_put_ok transport ifnum unit_id (h1, h2) hok]
  simp only [List.map]
  rw [host_to_device_spec h1 hr1.1 hr1.2, host_to_device_spec h2 hr2.1 hr2.2]

/-- Witness for C2 at host gains (-7000, 5000), both outside the range. -/
theorem C2_set_path_clamps_witness :
    (audiobox_vsl_volume_put (fun _ _ => 0) 2 10 (-7000, 5000)).issued.map Prod.snd =
      [encode_s16_le (if (-7000 : Int) < -6000 then -15360
                      else if 1200 < (-7000 : Int) then 3072
                      else ((-7000 : Int) * 256).tdiv 100),
       encode_s16_le (if (5000 : Int) < -6000 then -15360
                      else if 1200 < (5000 : Int) then 3072
                      else ((5000 : Int) * 256).tdiv 100)] :=
  C2_set_path_clamps (fun _ _ => 0) 2 10 (-7000) 5000 (fun _ _ => le_refl 0)
    (by decide) (by decide)

/-- C3 (counterexample): the device gain 23 lies in [-15360, 3072], its
get-then-set round trip lands at 20, and 20 is not within 1 unit of 23 —
refuting the claimed 1-unit bound. -/
theorem C3_roundtrip_counterexample :
    -15360 ≤ (23 : Int) ∧ (23 : Int) ≤ 3072 ∧
    host_to_device (device_to_host 23) = 20 ∧
    ¬ (host_to_device (device_to_host 23) - 23).natAbs ≤ 1 := by
  refine ⟨by decide, by decide, by decide, by decide⟩

/-- C3 (amended): for every device-native gain `d` in [-15360, 3072],
applying the get-path conversion followed by the set-path conversion
yields a value within 3 units of `d` (3 is tight, see the
counterexample at `d = 23`). -/
theorem C3_roundtrip_within_three (d : Int) (hlo : -15360 ≤ d) (hhi : d ≤ 3072) :
    (host_to_device (device_to_host d) - d).natAbs ≤ 3 := by
  rcases le_or_lt 0 (d * 100) with hc | hc
  · have hd2h : device_to_host d = d * 100 / 256 := by
      rw [device_to_host_eq d (by omega) (by omega), tdiv_eq_ite _ _ (by norm_num), if_pos hc]
    have hrange : 0 ≤ device_to_host d ∧ device_to_host d ≤ 1200 := by
      constructor <;> omega
    rw [host_to_device_spec (device_to_host d) (by omega) (by omega),
      if_neg (by omega), if_neg (by omega), tdiv_eq_ite _ _ (by norm_num),
      if_pos (by omega : (0 : Int) ≤ device_to_host d * 256)]
    omega
  · have hd2h : device_to_host d = -(-(d * 100) / 256) := by
      rw [device_to_host_eq d (by omega) (by omega), tdiv_eq_ite _ _ (by norm_num),
        if_neg (by omega)]
    have hrange : -6000 ≤ device_to_host d ∧ device_to_host d ≤ 0 := by
      constructor <;> omega
    by_cases hq : 0 ≤ device_to_host d * 256
    · rw [host_to_device_spec (device_to_host d) (by omega) (by omega),
        if_neg (by omega), if_neg (by omega), tdiv_eq_ite _ _ (by norm_num), if_pos hq]
      omega
    · rw [host_to_device_spec (device_to_host d) (by omega) (by omega),
        if_neg (by omega), if_neg (by omega), tdiv_eq_ite _ _ (by norm_num), if_neg hq]
      omega

/-- Witness for the amended C3 at `d = 23` (the worst case). -/
theorem C3_roundtrip_within_three_witness :
    (host_to_device (device_to_host 23) - 23).natAbs ≤ 3 :=
  C3_roundtrip_within_three 23 (by decide) (by decide)

/-- C4: every GET transaction issued by the builder uses request code CUR
(0x01), input direction, class/interface recipient,
`wValue = (control_selector << 8) | channel` and
`wIndex = (unit_id << 8) | interface_number`; every SET transaction uses
the same addressing with output direction. -/
theorem C4_wire_format (tget : CtlRequest → Int × List Nat)
    (tput : CtlRequest → List Nat → Int)
    (ifnum unit_id control_selector channel size : Nat) (buf : List Nat)
    (hifnum : ifnum < 256) (hunit : unit_id < 256)
    (hcs : control_selector < 256) (hch : channel < 256) :
    (∀ req ∈ (audiobox_vsl_get_control tget ifnum unit_id control_selector
                channel size).issued,
       req.request = UAC2_CS_CUR ∧ req.dirIn = true ∧
       req.requesttype = (USB_RECIP_INTERFACE ||| USB_TYPE_CLASS ||| USB_DIR_IN) ∧
       req.wValue = ((control_selector <<< 8) ||| channel) ∧
       req.wIndex = ((unit_id <<< 8) ||| ifnum)) ∧
    (∀ p ∈ (audiobox_vsl_set_control tput ifnum unit_id control_selector
              channel buf size).issued,
       p.1.request = UAC2_CS_CUR ∧ p.1.dirIn = false ∧
       p.1.requesttype = (USB_RECIP_INTERFACE ||| USB_TYPE_CLASS ||| USB_DIR_OUT) ∧
       p.1.wValue = ((control_selector <<< 8) ||| channel) ∧
       p.1.wIndex = ((unit_id <<< 8) ||| ifnum)) := by
  constructor
  · intro req hreq
    simp only [audiobox_vsl_get_control] at hreq
    split at hreq
    · simp at hreq
    · split at hreq <;>
      · simp at hreq
        subst hreq
        simp [mk_get_request, Nat.mod_eq_of_lt hcs, Nat.mod_eq_of_lt hch,
          Nat.mod_eq_of_lt hunit, Nat.mod_eq_of_lt hifnum]
  · intro p hp
    simp only [audiobox_vsl_set_control] at hp
    split at hp
    · simp at hp
    · split at hp <;>
      · simp at hp
        subst hp
        simp [mk_set_request, Nat.mod_eq_of_lt hcs, Nat.mod_eq_of_lt hch,
          Nat.mod_eq_of_lt hunit, Nat.mod_eq_of_lt hifnum]

/-- Witness for C4 at the volume addressing (selector 2, channel 1,
unit 10, interface 2, size 2). -/
theorem C4_wire_format_witness :
    (∀ req ∈ (audiobox_vsl_get_control (fun _ => (0, [0, 0])) 2 10 2 1 2).issued,
       req.request = UAC2_CS_CUR ∧ req.dirIn = true ∧
       req.requesttype = (USB_RECIP_INTERFACE ||| USB_TYPE_CLASS ||| USB_DIR_IN) ∧
       req.wValue = ((2 <<< 8) ||| 1) ∧ req.wIndex = ((10 <<< 8) ||| 2)) ∧
    (∀ p ∈ (audiobox_vsl_set_control (fun _ _ => 0) 2 10 2 1 [0, 0] 2).issued,
       p.1.request = UAC2_CS_CUR ∧ p.1.dirIn = false ∧
       p.1.requesttype = (USB_RECIP_INTERFACE ||| USB_TYPE_CLASS ||| USB_DIR_OUT) ∧
       p.1.wValue = ((2 <<< 8) ||| 1) ∧ p.1.wIndex = ((10 <<< 8) ||| 2)) :=
  C4_wire_format (fun _ => (0, [0, 0])) (fun _ _ => 0) 2 10 2 1 2 [0, 0]
    (by decide) (by decide) (by decide) (by decide)

/-- C5: the stereo set path issues exactly two writes, left channel (1)
first then right channel (2); if the left write fails the right write is
never attempted and the left write's error is returned; on full success it
returns 1 ("changed") unconditionally. -/
theorem C5_stereo_set_two_writes (transport : CtlRequest → List Nat → Int)
    (ifnum unit_id : Nat) (h1 h2 : Int) :
    (transport (mk_set_request ifnum unit_id UAC2_FU_VOLUME 1 2)
       (encode_s16_le (host_to_device h1)) < 0 →
     audiobox_vsl_volume_put transport ifnum unit_id (h1, h2) =
       ⟨transport (mk_set_request ifnum unit_id UAC2_FU_VOLUME 1 2)
          (encode_s16_le (host_to_device h1)),
        [(mk_set_request ifnum unit_id UAC2_FU_VOLUME 1 2,
          encode_s16_le (host_to_device h1))]⟩) ∧
    ((∀ req buf, 0 ≤ transport req buf) →
     audiobox_vsl_volume_put transport ifnum unit_id (h1, h2) =
       ⟨1, [(mk_set_request ifnum unit_id UAC2_FU_VOLUME 1 2,
             encode_s16_le (host_to_device h1)),
            (mk_set_request ifnum unit_id UAC2_FU_VOLUME 2 2,
             encode_s16_le (host_to_device h2))]⟩) :=
  ⟨fun hfail => volume_put_fail_left transport ifnum unit_id (h1, h2) hfail,
   fun hok => volume_put_ok transport ifnum unit_id (h1, h2) hok⟩

/-- Witness for C5 with a transport that always fails with -5. -/
theorem C5_stereo_set_two_writes_witness :
    audiobox_vsl_volume_put (fun _ _ => -5) 2 10 (0, 0) =
      ⟨-5, [(mk_set_request 2 10 UAC2_FU_VOLUME 1 2,
             encode_s16_le (host_to_device 0))]⟩ :=
  (C5_stereo_set_two_writes (fun _ _ => -5) 2 10 0 0).1 (by decide)

/-- C6: the stereo get path issues two 2-byte reads in order (channel 1
then channel 2), decoding each buffer as little-endian signed 16-bit; if
the channel-1 read fails the channel-2 read is never attempted and the
channel-1 error is returned with `ucontrol` untouched. -/
theorem C6_stereo_get_fail_fast (transport : CtlRequest → Int × List Nat)
    (ifnum unit_id : Nat) (uc : Int × Int) :
    ((transport (mk_get_request ifnum unit_id UAC2_FU_VOLUME 1 2)).1 < 0 →
     audiobox_vsl_volume_get transport ifnum unit_id uc =
       ⟨(transport (mk_get_request ifnum unit_id UAC2_FU_VOLUME 1 2)).1, uc,
        [mk_get_request ifnum unit_id UAC2_FU_VOLUME 1 2]⟩) ∧
    ((∀ req, 0 ≤ (transport req).1) →
     audiobox_vsl_volume_get transport ifnum unit_id uc =
       ⟨0, (device_to_host (decode_s16_le
              (transport (mk_get_request ifnum unit_id UAC2_FU_VOLUME 1 2)).2),
            device_to_host (decode_s16_le
              (transport (mk_get_request ifnum unit_id UAC2_FU_VOLUME 2 2)).2)),
        [mk_get_request ifnum unit_id UAC2_FU_VOLUME 1 2,
         mk_get_request ifnum unit_id UAC2_FU_VOLUME 2 2]⟩) :=
  ⟨fun hfail => volume_get_fail_left transport ifnum unit_id uc hfail,
   fun hok => volume_get_ok transport ifnum unit_id uc hok⟩

/-- Witness for C6 with a transport that always fails with -71. -/
theorem C6_stereo_get_fail_fast_witness :
    audiobox_vsl_volume_get (fun _ => (-71, [])) 2 10 (3, 4) =
      ⟨-71, (3, 4), [mk_get_request 2 10 UAC2_FU_VOLUME 1 2]⟩ :=
  (C6_stereo_get_fail_fast (fun _ => (-71, [])) 2 10 (3, 4)).1 (by decide)

/-- C7: the mute get path issues one 1-byte read on channel 0 and returns
the logical negation of the device byte (device 0 maps to host 1); the
mute put path writes one byte carrying the negation of the host flag on
channel 0 and returns 1 ("changed") on success. -/
theorem C7_mute_polarity (tget : CtlRequest → Int × List Nat)
    (tput : CtlRequest → List Nat → Int) (ifnum unit_id : Nat) (v : Int)
    (hg : 0 ≤ (tget (mk_get_request ifnum unit_id UAC2_FU_MUTE 0 1)).1)
    (hp : 0 ≤ tput (mk_set_request ifnum unit_id UAC2_FU_MUTE 0 1)
      [if v = 0 then 1 else 0]) :
    audiobox_vsl_mute_get tget ifnum unit_id v =
      ⟨0, (if (tget (mk_get_request ifnum unit_id UAC2_FU_MUTE 0 1)).2.getD 0 0 % 256 = 0
           then 1 else 0),
       [mk_get_request ifnum unit_id UAC2_FU_MUTE 0 1]⟩ ∧
    audiobox_vsl_mute_put tput ifnum unit_id v =
      ⟨1, [(mk_set_request ifnum unit_id UAC2_FU_MUTE 0 1, [if v = 0 then 1 else 0])]⟩ :=
  ⟨mute_get_ok tget ifnum unit_id v hg, mute_put_ok tput ifnum unit_id v hp⟩

/-- Witness for C7: device byte 0 reads back as host flag 1, and host
flag 0 is written as device byte 1. -/
theorem C7_mute_polarity_witness :
    audiobox_vsl_mute_get (fun _ => (0, [0])) 2 10 0 =
      ⟨0, 1, [mk_get_request 2 10 UAC2_FU_MUTE 0 1]⟩ ∧
    audiobox_vsl_mute_put (fun _ _ => 0) 2 10 0 =
      ⟨1, [(mk_set_request 2 10 UAC2_FU_MUTE 0 1, [1])]⟩ :=
  C7_mute_polarity (fun _ => (0, [0])) (fun _ _ => 0) 2 10 0 (by decide) (by decide)

/-- C8: a read or write with a buffer size outside 1..4 returns `-EINVAL`
and no bus transaction occurs (the result does not depend on the transport
and the transcript is empty). -/
theorem C8_invalid_size_no_transport (tget : CtlRequest → Int × List Nat)
    (tput : CtlRequest → List Nat → Int)
    (ifnum unit_id control_selector channel size : Nat) (buf : List Nat)
    (hsz : size = 0 ∨ 4 < size) :
    audiobox_vsl_get_control tget ifnum unit_id control_selector channel size =
      ⟨-EINVAL, [], []⟩ ∧
    audiobox_vsl_set_control tput ifnum unit_id control_selector channel buf size =
      ⟨-EINVAL, []⟩ := by
  refine ⟨?_, ?_⟩
  · unfold audiobox_vsl_get_control
    rw [if_pos hsz]
  · unfold audiobox_vsl_set_control
    rw [if_pos hsz]

/-- Witness for C8 at sizes 5 and 0. -/
theorem C8_invalid_size_no_transport_witness :
    (audiobox_vsl_get_control (fun _ => (0, [])) 2 10 2 1 5 = ⟨-EINVAL, [], []⟩ ∧
     audiobox_vsl_set_control (fun _ _ => 0) 2 10 2 1 [] 5 = ⟨-EINVAL, []⟩) ∧
    (audiobox_vsl_get_control (fun _ => (0, [])) 2 10 2 1 0 = ⟨-EINVAL, [], []⟩ ∧
     audiobox_vsl_set_control (fun _ _ => 0) 2 10 2 1 [] 0 = ⟨-EINVAL, []⟩) :=
  ⟨C8_invalid_size_no_transport (fun _ => (0, [])) (fun _ _ => 0) 2 10 2 1 5 []
     (by decide),
   C8_invalid_size_no_transport (fun _ => (0, [])) (fun _ _ => 0) 2 10 2 1 0 []
     (by decide)⟩

/-- C9: initialization registers exactly four controls in the fixed order
Playback Volume, Playback Mute, Capture Volume, Capture Mute against units
10, 10, 11, 11; the first failing registration aborts the sequence and its
error is returned, with the earlier registrations left in place (no
rollback); the result is 0 exactly when all four registrations succeed. -/
theorem C9_init_order_and_failfast (reg : VslControl → Nat → Int) :
    VSL_FU_PLAYBACK_UNIT = 10 ∧ VSL_FU_CAPTURE_UNIT = 11 ∧
    (0 ≤ reg .playbackVolume VSL_FU_PLAYBACK_UNIT →
     0 ≤ reg .playbackMute VSL_FU_PLAYBACK_UNIT →
     0 ≤ reg .captureVolume VSL_FU_CAPTURE_UNIT →
     0 ≤ reg .captureMute VSL_FU_CAPTURE_UNIT →
     snd_audiobox_vsl_init reg =
       ⟨0, [(.playbackVolume, VSL_FU_PLAYBACK_UNIT), (.playbackMute, VSL_FU_PLAYBACK_UNIT),
            (.captureVolume, VSL_FU_CAPTURE_UNIT), (.captureMute, VSL_FU_CAPTURE_UNIT)]⟩) ∧
    (reg .playbackVolume VSL_FU_PLAYBACK_UNIT < 0 →
     snd_audiobox_vsl_init reg = ⟨reg .playbackVolume VSL_FU_PLAYBACK_UNIT, []⟩) ∧
    (0 ≤ reg .playbackVolume VSL_FU_PLAYBACK_UNIT →
     reg .playbackMute VSL_FU_PLAYBACK_UNIT < 0 →
     snd_audiobox_vsl_init reg =
       ⟨reg .playbackMute VSL_FU_PLAYBACK_UNIT,
        [(.playbackVolume, VSL_FU_PLAYBACK_UNIT)]⟩) ∧
    (0 ≤ reg .playbackVolume VSL_FU_PLAYBACK_UNIT →
     0 ≤ reg .playbackMute VSL_FU_PLAYBACK_UNIT →
     reg .captureVolume VSL_FU_CAPTURE_UNIT < 0 →
     snd_audiobox_vsl_init reg =
       ⟨reg .captureVolume VSL_FU_CAPTURE_UNIT,
        [(.playbackVolume, VSL_FU_PLAYBACK_UNIT), (.playbackMute, VSL_FU_PLAYBACK_UNIT)]⟩) ∧
    (0 ≤ reg .playbackVolume VSL_FU_PLAYBACK_UNIT →
     0 ≤ reg .playbackMute VSL_FU_PLAYBACK_UNIT →
     0 ≤ reg .captureVolume VSL_FU_CAPTURE_UNIT →
     reg .captureMute VSL_FU_CAPTURE_UNIT < 0 →
     snd_audiobox_vsl_init reg =
       ⟨reg .captureMute VSL_FU_CAPTURE_UNIT,
        [(.playbackVolume, VSL_FU_PLAYBACK_UNIT), (.playbackMute, VSL_FU_PLAYBACK_UNIT),
         (.captureVolume, VSL_FU_CAPTURE_UNIT)]⟩) ∧
    ((snd_audiobox_vsl_init reg).ret = 0 ↔
     (0 ≤ reg .playbackVolume VSL_FU_PLAYBACK_UNIT ∧
      0 ≤ reg .playbackMute VSL_FU_PLAYBACK_UNIT ∧
      0 ≤ reg .captureVolume VSL_FU_CAPTURE_UNIT ∧
      0 ≤ reg .captureMute VSL_FU_CAPTURE_UNIT)) := by
  refine ⟨rfl, rfl, ?_, ?_, ?_, ?_, ?_, ?_⟩
  · intro a1 a2 a3 a4
    simp only [snd_audiobox_vsl_init]
    rw [if_neg (by omega), if_neg (by omega), if_neg (by omega), if_neg (by omega)]
  · intro a1
    simp only [snd_audiobox_vsl_init]
    rw [if_pos a1]
  · intro a1 a2
    simp only [snd_audiobox_vsl_init]
    rw [if_neg (by omega), if_pos a2]
  · intro a1 a2 a3
    simp only [snd_audiobox_vsl_init]
    rw [if_neg (by omega), if_neg (by omega), if_pos a3]
  · intro a1 a2 a3 a4
    simp only [snd_audiobox_vsl_init]
    rw [if_neg (by omega), if_neg (by omega), if_neg (by omega), if_pos a4]
  · simp only [snd_audiobox_vsl_init]
    split_ifs with f1 f2 f3 f4 <;> simp <;> omega

/-- Witness for C9: a registry that rejects the third step with -12 leaves
the first two controls registered and aborts with -12. -/
theorem C9_init_order_and_failfast_witness :
    snd_audiobox_vsl_init (fun c _ => if c = .captureVolume then -12 else 0) =
      ⟨-12, [(.playbackVolume, VSL_FU_PLAYBACK_UNIT),
             (.playbackMute, VSL_FU_PLAYBACK_UNIT)]⟩ :=
  (C9_init_order_and_failfast
    (fun c _ => if c = .captureVolume then -12 else 0)).2.2.2.2.2.1
    (by decide) (by decide) (by decide)

/-- C10 (implicit): in the stereo get path the decoded left gain is stored
into the caller-visible slot 0 before the channel-2 read is attempted, so
when the channel-2 read fails the call returns that error with slot 0
already overwritten (and differing from its initial contents whenever the
decoded gain differs) while slot 1 keeps its initial value: the output is
not atomic on a second-read failure. -/
theorem C10_left_written_before_right_fails (transport : CtlRequest → Int × List Nat)
    (ifnum unit_id : Nat) (uc : Int × Int)
    (hok1 : 0 ≤ (transport (mk_get_request ifnum unit_id UAC2_FU_VOLUME 1 2)).1)
    (hfail2 : (transport (mk_get_request ifnum unit_id UAC2_FU_VOLUME 2 2)).1 < 0) :
    audiobox_vsl_volume_get transport ifnum unit_id uc =
      ⟨(transport (mk_get_request ifnum unit_id UAC2_FU_VOLUME 2 2)).1,
       (device_to_host (decode_s16_le
          (transport (mk_get_request ifnum unit_id UAC2_FU_VOLUME 1 2)).2), uc.2),
       [mk_get_request ifnum unit_id UAC2_FU_VOLUME 1 2,
        mk_get_request ifnum unit_id UAC2_FU_VOLUME 2 2]⟩ ∧
    (device_to_host (decode_s16_le
        (transport (mk_get_request ifnum unit_id UAC2_FU_VOLUME 1 2)).2) ≠ uc.1 →
     (audiobox_vsl_volume_get transport ifnum unit_id uc).values.1 ≠ uc.1) := by
  have he := volume_get_fail_right transport ifnum unit_id uc hok1 hfail2
  refine ⟨he, fun hne => ?_⟩
  have h1 : (audiobox_vsl_volume_get transport ifnum unit_id uc).values.1
      = device_to_host (decode_s16_le
          (transport (mk_get_request ifnum unit_id UAC2_FU_VOLUME 1 2)).2) := by
    rw [he]
  rw [h1]
  exact hne

/-- Witness for C10: channel 1 reads back -15360 (host -6000), channel 2
fails with -5; the call returns -5 with slot 0 overwritten by -6000. -/
theorem C10_left_written_before_right_fails_witness :
    audiobox_vsl_volume_get
        (fun req => if req.wValue % 256 = 2 then (-5, []) else (0, [0, 196])) 2 10 (7, 7) =
      ⟨-5, (-6000, 7),
       [mk_get_request 2 10 UAC2_FU_VOLUME 1 2, mk_get_request 2 10 UAC2_FU_VOLUME 2 2]⟩ ∧
    (audiobox_vsl_volume_get
        (fun req => if req.wValue % 256 = 2 then (-5, []) else (0, [0, 196]))
        2 10 (7, 7)).values.1 ≠ 7 := by
  have h := C10_left_written_before_right_fails
    (fun req => if req.wValue % 256 = 2 then (-5, []) else (0, [0, 196])) 2 10 (7, 7)
    (by decide) (by decide)
  exact ⟨h.1, h.2 (by decide)⟩
